import Mathlib

/-!
Shallow embedding of the X-protocol client engine in `protocol.go` of
go-mysqlx-driver: the frame codec (`readMsg`, `writeProtobufPacket`), notice
processing (`processNotice`), error decoding (`errorText`, `errorMsg`),
capability negotiation (`getCapabilities`, `setScalarBoolCapability`) and the
MYSQL41 authentication handshake (`AuthenticateMySQL41`,
`waitingForAuthenticateOk`).

Machine bytes are `Nat` values below 256; Go `int` fields that can be
negative are `Int`.  Protobuf payload bodies are encoded and decoded by an
external schema codec (a third-party library, an external collaborator per
the spec); at the message level they are therefore represented by the decoded
views that codec yields.  Process-terminating calls (`log.Fatal`,
`log.Fatalf`, nil-pointer dereference panics) are explicit outcome
constructors, so that "aborts the process" is a provable/refutable statement.
-/

namespace MysqlX

/-- Modelled from the spec: the repository constant `minPacketSize` is defined
outside `protocol.go`; the spec fixes the minimum at 1 — a frame must at
least cover the type byte, and a header value below 1 is malformed. -/
def minPacketSize : Nat := 1

/-- Go struct `netProtobuf`: the message type (a Go `int`, hence `Int`, since
negative values are representable and never rejected explicitly) and the
payload bytes, where `none` models Go's nil byte slice. -/
structure NetProtobuf where
  msgType : Int
  payload : Option (List Nat)
deriving Repr, DecidableEq

/-- Payload bytes of a packet, with Go's nil slice reading as empty. -/
def NetProtobuf.payloadBytes (pb : NetProtobuf) : List Nat :=
  pb.payload.getD []

/-- Go `byte(i)` on an `int`: two's-complement truncation to the low 8 bits,
which for `Int` is the Euclidean remainder modulo 256. -/
def byteOfInt (i : Int) : Nat :=
  (i.emod 256).toNat

/-- The 4-byte little-endian header layout of `writeProtobufPacket`
(`data[0] = byte(pktLen)`, `data[1] = byte(pktLen >> 8)`, ...). -/
def le32 (n : Nat) : List Nat :=
  [n % 256, n / 256 % 256, n / 65536 % 256, n / 16777216 % 256]

/-- Outcome of `mysqlXConn.readMsg`.
* `ok pb rest`: a packet was decoded; `rest` is the unconsumed input.
* `malformedPkt rest`: the header value was below `minPacketSize`;
  `ErrMalformPkt` is logged, the connection is closed (`mc.Close()`), and
  `driver.ErrBadConn` is returned with `rest` (everything after the 4 header
  bytes) unconsumed — no resynchronization is attempted.
* `transportErr`: `readNext` could not supply the requested bytes; the
  connection is closed and `driver.ErrBadConn` is returned. -/
inductive ReadMsgResult where
  | ok (pb : NetProtobuf) (rest : List Nat)
  | malformedPkt (rest : List Nat)
  | transportErr
deriving Repr, DecidableEq

/-- Embedding of `mysqlXConn.readMsg` over the incoming byte stream: read a
4-byte little-endian length, reject values below `minPacketSize`, then read
`pktLen` further bytes — byte 0 is the message type, the remainder (if any)
the payload; a packet of body length 1 leaves the payload nil. -/
def readMsg (stream : List Nat) : ReadMsgResult :=
  match stream with
  | b0 :: b1 :: b2 :: b3 :: rest =>
    let pktLen := b0 + b1 * 256 + b2 * 65536 + b3 * 16777216
    if pktLen < minPacketSize then .malformedPkt rest
    else if rest.length < pktLen then .transportErr
    else
      let data := rest.take pktLen
      .ok { msgType := Int.ofNat (data.headD 0),
            payload := if 1 < data.length then some (data.drop 1) else none }
        (rest.drop pktLen)
  | _ => .transportErr

/-- Outcome of `mysqlXConn.writeProtobufPacket`.
* `malformed`: the packet was nil or `msgType > 255`; the connection is
  closed and `ErrMalformPkt` returned, nothing is written.
* `tooLarge`: `len(payload) + 1` exceeds `maxPacketAllowed`;
  `ErrPktTooLarge` is returned, nothing is written and the connection is
  *not* closed (only this one operation aborts).
* `written bytes`: the frame bytes handed to the transport, header first. -/
inductive WriteResult where
  | malformed
  | tooLarge
  | written (bytes : List Nat)
deriving Repr, DecidableEq

/-- Embedding of `mysqlXConn.writeProtobufPacket`: reject nil packets and
`msgType > 255` (note: values below 0 are *not* rejected — the source only
tests `pb.msgType > 255`), reject `pktLen > maxPacketAllowed`, otherwise emit
the 4-byte little-endian length, the truncated type byte and the payload. -/
def writeProtobufPacket (maxPacketAllowed : Nat) (pb : Option NetProtobuf) :
    WriteResult :=
  match pb with
  | none => .malformed
  | some pb =>
    if 255 < pb.msgType then .malformed
    else
      let pktLen := pb.payloadBytes.length + 1
      if maxPacketAllowed < pktLen then .tooLarge
      else .written (le32 pktLen ++ byteOfInt pb.msgType :: pb.payloadBytes)

/-! ### Inbound message registry

Modelled from the spec: the numeric codes of `Mysqlx.ServerMessages_Type`
come from the generated protobuf bindings, which live outside `protocol.go`;
the values below follow the X Protocol `ServerMessages` enumeration named by
the spec's message registry (generic OK, generic structured ERROR,
capability-list reply, authenticate-continue/ok, asynchronous NOTICE). -/

def serverMessagesOk : Nat := 0

def serverMessagesError : Nat := 1

def serverMessagesConnCapabilities : Nat := 2

def serverMessagesSessAuthenticateContinue : Nat := 3

def serverMessagesSessAuthenticateOk : Nat := 4

def serverMessagesNotice : Nat := 11

/-! ### Decoded payload views

The schema codec (`proto.Marshal` / `proto.Unmarshal`) is an external
collaborator; `protocol.go` only branches on whether a given unmarshal
succeeds and on the decoded field values.  Payloads are therefore modelled by
the view the codec yields for the schemas this engine requests. -/

/-- Modelled from the spec: the decoded view of a notice frame's *inner*
payload.  Each `asX` field is what unmarshalling the inner bytes under schema
`X` yields (`none` when that unmarshal fails); `rawHex` is the hex rendering
used for unknown notice types.  A `Warning` decodes to (level, code,
message); the session notices decode to (param, rendered value). -/
structure InnerNoticeView where
  asWarning : Option (String × Nat × String)
  asSessionVariableChanged : Option (String × String)
  asSessionStateChanged : Option (String × String)
  rawHex : String
deriving Repr, DecidableEq

/-- Go struct `Mysqlx.Error` after a successful unmarshal: all four schema
fields present. -/
structure XError where
  severity : String
  code : Nat
  sqlState : String
  message : String
deriving Repr, DecidableEq

/-- Modelled from the spec: the raw field view of an error payload before the
mandatory-field check — each of the four schema fields may be absent. -/
structure ErrorFields where
  severity : Option String
  code : Option Nat
  sqlState : Option String
  message : Option String
deriving Repr, DecidableEq

/-- Go type `Mysqlx_Datatypes.Any` as classified by the helper functions
`isScalar` / `isScalarString` / `isScalarBool` / `isArrayString`:
a string scalar, a bool scalar, a scalar of any other type (named for the
log line), an array of string scalars, an array failing `isArrayString`, or
any other non-scalar shape. -/
inductive AnyView where
  | scalarString (s : String)
  | scalarBool (b : Bool)
  | scalarOther (typeName : String)
  | arrayString (ss : List String)
  | arrayOther
  | other
deriving Repr, DecidableEq

/-- Modelled from the spec: the decoded view of one server-frame payload, as
returned by the external schema codec for the schema the engine requests.
`empty` is a nil payload (a frame of body length 1); `undecodable` stands for
bytes the codec rejects under every schema of interest here. -/
inductive PayloadView where
  | notice (noticeType : Nat) (scope : Nat) (inner : InnerNoticeView)
  | errFields (f : ErrorFields)
  | authContinue (authData : List Nat)
  | authOk (authData : List Nat)
  | caps (entries : List (String × AnyView))
  | empty
  | undecodable
deriving Repr, DecidableEq

/-- A server message at the message level: numeric type plus decoded payload
view (the framing itself is `readMsg` above). -/
structure SrvMsg where
  msgType : Nat
  payload : PayloadView
deriving Repr, DecidableEq

/-- Unmarshal of a `Mysqlx_Notice.Frame`: succeeds on a notice payload; a nil
payload unmarshals to an all-default frame (type 0, empty inner). -/
def decodeNoticeFrame : PayloadView → Option (Nat × Nat × InnerNoticeView)
  | .notice t s i => some (t, s, i)
  | .empty => some (0, 0, ⟨none, none, none, ""⟩)
  | _ => none

/-- Mandatory-field check of `Mysqlx.Error`: unmarshal fails unless severity,
code, sqlState and message are all present (they are required in the
schema). -/
def decodeErrorFields (f : ErrorFields) : Option XError :=
  match f.severity, f.code, f.sqlState, f.message with
  | some sv, some c, some sq, some m => some ⟨sv, c, sq, m⟩
  | _, _, _, _ => none

/-- Unmarshal of a `Mysqlx.Error` payload. -/
def decodeError : PayloadView → Option XError
  | .errFields f => decodeErrorFields f
  | _ => none

/-- Unmarshal of a `Mysqlx_Session.AuthenticateContinue` payload; its
auth-data field is optional, so a nil payload decodes to empty auth data. -/
def decodeAuthContinue : PayloadView → Option (List Nat)
  | .authContinue d => some d
  | .empty => some []
  | _ => none

/-- Unmarshal of a `Mysqlx_Session.AuthenticateOk` payload; its auth-data
field is optional, so a nil payload decodes to empty auth data. -/
def decodeAuthOk : PayloadView → Option (List Nat)
  | .authOk d => some d
  | .empty => some []
  | _ => none

/-- Unmarshal of a `Mysqlx_Connection.Capabilities` payload. -/
def decodeCapabilities : PayloadView → Option (List (String × AnyView))
  | .caps es => some es
  | .empty => some []
  | _ => none

/-! ### Error decoder -/

/-- Zero-padded rendering of Go's `%04d`. -/
def pad4 (n : Nat) : String :=
  let s := toString n
  String.mk (List.replicate (4 - s.length) '0') ++ s

/-- Embedding of `errorText`: the canonical rendering
`"{severity}: {code:04d} [{sqlState}] {message}"` of a decoded error. -/
def errorText (e : XError) : String :=
  e.severity ++ ": " ++ pad4 e.code ++ " [" ++ e.sqlState ++ "] " ++ e.message

/-- Outcome of the package-level `errorMsg(data)`.
* `fatal`: `proto.Unmarshal` failed and `log.Fatal` terminated the process.
* `err s`: the decoded error rendered by `errorText`. -/
inductive ErrorMsgOutcome where
  | fatal
  | err (s : String)
deriving Repr, DecidableEq

/-- Embedding of the package-level `errorMsg(data []byte)`: unmarshal the
error payload, calling `log.Fatal` (process abort) on failure, else render it
with `errorText`. -/
def errorMsg (payload : PayloadView) : ErrorMsgOutcome :=
  match decodeError payload with
  | none => .fatal
  | some e => .err (errorText e)

/-! ### Notice processing -/

/-- The map `mysqlxNoticeTypeName` via `noticeTypeToName`. -/
def noticeTypeToName (t : Nat) : String :=
  match t with
  | 1 => "Warning"
  | 2 => "SessionVariableChanged"
  | 3 => "SessionStateChanged"
  | _ => "?"

/-- The `payload` diagnostic line built for a decoded Warning notice. -/
def warningReport (level : String) (code : Nat) (msg : String) : String :=
  "Level: " ++ level ++ ", code: " ++ toString code ++ ", msg: " ++ msg

/-- The `payload` diagnostic line built for a decoded SessionVariableChanged
notice. -/
def sessionVariableReport (param value : String) : String :=
  "SessionVariableChanged: Param: " ++ param ++ ", Value: " ++ value

/-- The `payload` diagnostic line built for a decoded SessionStateChanged
notice. -/
def sessionStateReport (param value : String) : String :=
  "SessionStateChanged: Param: " ++ param ++ ", Value: " ++ value

/-- Outcome of `mysqlXConn.processNotice`.
* `fatal`: one of its `log.Fatalf` calls fired — the process terminates.
* `processed line`: the notice was decoded, `line` was reported to the
  observer (`debug.Msg`), `mc.pb` was reset and `nil` returned. -/
inductive NoticeOutcome where
  | fatal
  | processed (line : String)
deriving Repr, DecidableEq

/-- Embedding of `mysqlXConn.processNotice`: `log.Fatalf` when the pending
message is nil, when the outer `Mysqlx_Notice.Frame` fails to unmarshal, or
when the inner payload of a Warning / SessionVariableChanged /
SessionStateChanged notice fails to unmarshal; unknown notice types fall back
to a hex dump of the inner bytes and are never fatal. -/
def processNotice (pb : Option SrvMsg) : NoticeOutcome :=
  match pb with
  | none => .fatal
  | some pb =>
    match decodeNoticeFrame pb.payload with
    | none => .fatal
    | some (ty, _scope, inner) =>
      match ty with
      | 1 =>
        match inner.asWarning with
        | none => .fatal
        | some (level, code, msg) => .processed (warningReport level code msg)
      | 2 =>
        match inner.asSessionVariableChanged with
        | none => .fatal
        | some (p, v) => .processed (sessionVariableReport p v)
      | 3 =>
        match inner.asSessionStateChanged with
        | none => .fatal
        | some (p, v) => .processed (sessionStateReport p v)
      | _ => .processed inner.rawHex

/-! ### Capability negotiation -/

/-- A decoded capability value as stored in the connection's capability
table. -/
inductive CapVal where
  | str (s : String)
  | bool (b : Bool)
  | strs (ss : List String)
deriving Repr, DecidableEq

/-- Classification of one capability value by the body of the
`getCapabilities` loop over `capabilities.GetCapabilities()`:
`some (some v)` is added to the table, `some none` is logged and skipped
(an unhandled scalar type), and `none` is the nil-pointer dereference panic
of the final else branch, which evaluates `value.Scalar.Type.String()` on a
value whose `Scalar` field is nil (any non-scalar shape). -/
def classifyCapability : AnyView → Option (Option CapVal)
  | .scalarString s => some (some (.str s))
  | .scalarBool b => some (some (.bool b))
  | .scalarOther _ => some none
  | .arrayString ss => some (some (.strs ss))
  | .arrayOther => none
  | .other => none

/-- Modelled from the spec: the capability table (`mc.capabilities` with its
`AddScalarString` / `AddScalarBool` / `AddArrayString` operations lives
outside `protocol.go`); the table maps capability names to decoded values, in
arrival order.  `none` is the panic of the unhandled non-scalar branch. -/
def populateCapabilities :
    List (String × AnyView) → Option (List (String × CapVal))
  | [] => some []
  | (name, v) :: rest =>
    match classifyCapability v with
    | none => none
    | some none => populateCapabilities rest
    | some (some cv) =>
      (populateCapabilities rest).map (fun table => (name, cv) :: table)

/-- What a tolerant wait loop did besides its terminal outcome: how many
messages it consumed from the stream and the notice lines it reported to the
observer, in order. -/
structure LoopTrace where
  consumed : Nat
  notices : List String
deriving Repr, DecidableEq

/-- Terminal outcome of the `getCapabilities` wait loop.
* `badConn`: `readMsg` failed (connection closed).
* `fatal`: a `log.Fatal` path fired inside `errorMsg` or `processNotice`.
* `errReturned s`: an ERROR frame was decoded and returned as an error.
* `finished pb`: the CONN_CAPABILITIES frame that terminated the loop. -/
inductive CapsLoopCore where
  | badConn
  | fatal
  | errReturned (s : String)
  | finished (pb : SrvMsg)
deriving Repr, DecidableEq

/-- The wait loop of `getCapabilities`: ERROR terminates with the decoded
error, CONN_CAPABILITIES terminates successfully, NOTICE is handed to
`processNotice` and the loop continues, and any other type is only logged
("got unexpected message type ..., ignoring") and the loop continues. -/
def getCapabilitiesLoop : List SrvMsg → CapsLoopCore × LoopTrace
  | [] => (.badConn, ⟨0, []⟩)
  | m :: rest =>
    if m.msgType = serverMessagesError then
      match errorMsg m.payload with
      | .fatal => (.fatal, ⟨1, []⟩)
      | .err s => (.errReturned ("getCapabilities returned: " ++ s), ⟨1, []⟩)
    else if m.msgType = serverMessagesConnCapabilities then
      (.finished m, ⟨1, []⟩)
    else if m.msgType = serverMessagesNotice then
      match processNotice (some m) with
      | .fatal => (.fatal, ⟨1, []⟩)
      | .processed line =>
        let (core, t) := getCapabilitiesLoop rest
        (core, ⟨t.consumed + 1, line :: t.notices⟩)
    else
      let (core, t) := getCapabilitiesLoop rest
      (core, ⟨t.consumed + 1, t.notices⟩)

/-- Overall outcome of `getCapabilities`.
* `badConn` / `fatal` as in the loop; `panicked` is the nil-pointer
  dereference on an unhandled non-scalar capability value.
* `err s`: an error return (`fmt.Errorf`), connection still open.
* `ok table`: success, with the decoded capability table. -/
inductive CapsResult where
  | badConn
  | fatal
  | panicked
  | err (s : String)
  | ok (table : List (String × CapVal))
deriving Repr, DecidableEq

/-- Embedding of `mysqlXConn.getCapabilities` over the reply stream (the
CapabilitiesGet request write precedes the loop): run the tolerant wait loop,
then reject a nil payload ("BUG: Empty pb.payload"), unmarshal the
capability list and populate the capability table from it. -/
def getCapabilities (stream : List SrvMsg) : CapsResult × LoopTrace :=
  match getCapabilitiesLoop stream with
  | (.badConn, t) => (.badConn, t)
  | (.fatal, t) => (.fatal, t)
  | (.errReturned s, t) => (.err s, t)
  | (.finished pb, t) =>
    match pb.payload with
    | .empty => (.err "BUG: Empty pb.payload", t)
    | p =>
      match decodeCapabilities p with
      | none => (.err "unmarshaling error with capabilities", t)
      | some entries =>
        match populateCapabilities entries with
        | none => (.panicked, t)
        | some table => (.ok table, t)

/-- Terminal outcome of the `setScalarBoolCapability` wait loop. -/
inductive SetCapCore where
  | badConn
  | fatal
  | okDone
  | errReturned
deriving Repr, DecidableEq

/-- The wait loop of `setScalarBoolCapability` (after the CapabilitiesSet
request write): OK terminates successfully, ERROR terminates with an error
return, NOTICE is handed to `processNotice` and the loop continues, and any
other type is only logged ("got unexpected message type %d, ignoring") and
the loop continues. -/
def setScalarBoolCapabilityLoop : List SrvMsg → SetCapCore × LoopTrace
  | [] => (.badConn, ⟨0, []⟩)
  | m :: rest =>
    if m.msgType = serverMessagesOk then (.okDone, ⟨1, []⟩)
    else if m.msgType = serverMessagesError then (.errReturned, ⟨1, []⟩)
    else if m.msgType = serverMessagesNotice then
      match processNotice (some m) with
      | .fatal => (.fatal, ⟨1, []⟩)
      | .processed line =>
        let (core, t) := setScalarBoolCapabilityLoop rest
        (core, ⟨t.consumed + 1, line :: t.notices⟩)
    else
      let (core, t) := setScalarBoolCapabilityLoop rest
      (core, ⟨t.consumed + 1, t.notices⟩)

/-! ### Authentication handshake -/

/-- Terminal outcome of `waitingForAuthenticateOk`.
* `badConn`: `readMsg` failed.
* `fatal`: a `log.Fatal` path fired — either `errorMsg` on an undecodable
  ERROR payload, or the `log.Fatalf` of the default branch on a message type
  outside {SESS_AUTHENTICATE_OK, ERROR, NOTICE}.
* `okMsg pb`: the SESS_AUTHENTICATE_OK frame; the loop returns nil with the
  frame left in `mc.pb`.
* `failed s`: an ERROR frame was decoded and returned to the caller. -/
inductive AuthOkCore where
  | badConn
  | fatal
  | okMsg (pb : SrvMsg)
  | failed (s : String)
deriving Repr, DecidableEq

/-- Embedding of `mysqlXConn.waitingForAuthenticateOk`:
SESS_AUTHENTICATE_OK terminates successfully; ERROR returns
`errorMsg(payload)` immediately (reading nothing further); NOTICE is handed
to `processNotice` (its error return, if any, is only logged) and the loop
continues; any other message type hits `log.Fatalf` and aborts the
process. -/
def waitingForAuthenticateOk : List SrvMsg → AuthOkCore × LoopTrace
  | [] => (.badConn, ⟨0, []⟩)
  | m :: rest =>
    if m.msgType = serverMessagesSessAuthenticateOk then (.okMsg m, ⟨1, []⟩)
    else if m.msgType = serverMessagesError then
      match errorMsg m.payload with
      | .fatal => (.fatal, ⟨1, []⟩)
      | .err s => (.failed s, ⟨1, []⟩)
    else if m.msgType = serverMessagesNotice then
      match processNotice (some m) with
      | .fatal => (.fatal, ⟨1, []⟩)
      | .processed line =>
        let (core, t) := waitingForAuthenticateOk rest
        (core, ⟨t.consumed + 1, line :: t.notices⟩)
    else (.fatal, ⟨1, []⟩)

/-- Modelled from the spec: the MYSQL41 mechanism object built by
`NewMySQL41` (defined outside `protocol.go`) — an initial auth token derived
from database and user, and the password-nonce credential transform
`GetNextAuthData`, which may fail.  Its output value is opaque to the control
flow proved here. -/
structure AuthMech where
  initialAuthData : List Nat
  nextAuthData : List Nat → Except String (List Nat)

/-- Terminal outcome of `AuthenticateMySQL41`. -/
inductive AuthCore where
  | ok
  | badConn
  | fatal
  | errUnexpected (got : Nat)
  | errNonceLen (got : Nat)
  | errNextAuth (e : String)
  | failed (s : String)
deriving Repr, DecidableEq

/-- What the handshake did: messages consumed from the reply stream, whether
the credential transform (`authInfo.GetNextAuthData`) was invoked, and the
notice lines reported. -/
structure AuthTrace where
  framesRead : Nat
  transformInvoked : Bool
  notices : List String
deriving Repr, DecidableEq

/-- Embedding of `mysqlXConn.AuthenticateMySQL41` over the reply stream
(the AuthenticateStart write precedes; its error value is dropped in the
source).  Strictly one reply is read for the nonce: a type other than
SESS_AUTHENTICATE_CONTINUE is an immediate error return; an undecodable
continue payload hits `log.Fatal` inside `readSessAuthenticateContinue`;
auth data of length ≠ 20 is an error return before `GetNextAuthData` is
invoked.  Otherwise the transform runs, the scrambled continue message is
written, and `waitingForAuthenticateOk` drives the result — on its success
`printAuthenticateOk` unmarshals the ok payload, with `log.Fatal` on
failure. -/
def AuthenticateMySQL41 (mech : AuthMech) (stream : List SrvMsg) :
    AuthCore × AuthTrace :=
  match stream with
  | [] => (.badConn, ⟨0, false, []⟩)
  | m :: rest =>
    if m.msgType ≠ serverMessagesSessAuthenticateContinue then
      (.errUnexpected m.msgType, ⟨1, false, []⟩)
    else
      match decodeAuthContinue m.payload with
      | none => (.fatal, ⟨1, false, []⟩)
      | some authData =>
        if authData.length ≠ 20 then
          (.errNonceLen authData.length, ⟨1, false, []⟩)
        else
          match mech.nextAuthData authData with
          | .error e => (.errNextAuth e, ⟨1, true, []⟩)
          | .ok _response =>
            match waitingForAuthenticateOk rest with
            | (.okMsg pb, t) =>
              match decodeAuthOk pb.payload with
              | none => (.fatal, ⟨1 + t.consumed, true, t.notices⟩)
              | some _ => (.ok, ⟨1 + t.consumed, true, t.notices⟩)
            | (.badConn, t) =>
              (.failed "read", ⟨1 + t.consumed, true, t.notices⟩)
            | (.fatal, t) => (.fatal, ⟨1 + t.consumed, true, t.notices⟩)
            | (.failed s, t) => (.failed s, ⟨1 + t.consumed, true, t.notices⟩)

/-! ## Claims -/

/-- Decoding the little-endian header emitted by `le32` recovers the length
for any value fitting 32 bits. -/
theorem le32_decode (n : Nat) (hn : n < 4294967296) :
    n % 256 + n / 256 % 256 * 256 + n / 65536 % 256 * 65536 +
      n / 16777216 % 256 * 16777216 = n := by omega

/-- A frame of body length `n` (at least 1, fitting 32 bits) followed by
`more` decodes to its body and leaves exactly `more` unconsumed. -/
theorem readMsg_frame (n : Nat) (h1 : 1 ≤ n) (hn : n < 4294967296)
    (body more : List Nat) (hb : body.length = n) :
    readMsg (le32 n ++ (body ++ more)) =
      .ok ⟨Int.ofNat (body.headD 0),
        if 1 < n then some (body.drop 1) else none⟩ more := by
  have hdec := le32_decode n hn
  simp only [le32, List.cons_append, List.nil_append, readMsg]
  rw [hdec]
  rw [if_neg (by simp [minPacketSize]; omega)]
  rw [if_neg (by simp [List.length_append, hb])]
  rw [← hb, List.take_left, List.drop_left]

/-- C1: for every message type `t` in 0..255 and every payload of length 0, 1
or the configured maximum minus one (and fitting the configured maximum),
decoding the bytes produced by `writeProtobufPacket` recovers exactly the
type and the payload bytes, consuming the whole frame. -/
theorem c1_frame_roundtrip (max : Nat) (t : Int) (p : List Nat)
    (ht0 : 0 ≤ t) (ht1 : t ≤ 255)
    (hbytes : ∀ b ∈ p, b < 256)
    (hmax : max < 4294967296)
    (hlen : p.length + 1 ≤ max)
    (hcase : p.length = 0 ∨ p.length = 1 ∨ p.length = max - 1) :
    ∃ bytes, writeProtobufPacket max (some ⟨t, some p⟩) = .written bytes ∧
      ∃ pb, readMsg bytes = .ok pb [] ∧ pb.msgType = t ∧ pb.payloadBytes = p := by
  have hW : writeProtobufPacket max (some ⟨t, some p⟩) =
      .written (le32 (p.length + 1) ++ byteOfInt t :: p) := by
    simp only [writeProtobufPacket, NetProtobuf.payloadBytes]
    rw [if_neg (by simp; omega), if_neg (by simp; omega)]
    simp
  refine ⟨_, hW, ?_⟩
  have hR := readMsg_frame (p.length + 1) (by omega) (by omega)
      (byteOfInt t :: p) [] (by simp)
  rw [List.append_nil] at hR
  refine ⟨_, hR, ?_, ?_⟩
  · show Int.ofNat ((byteOfInt t :: p).headD 0) = t
    have h1 : t.emod 256 = t := Int.emod_eq_of_lt ht0 (by omega)
    simp [byteOfInt, h1]
    omega
  · show NetProtobuf.payloadBytes _ = p
    cases p with
    | nil => simp [NetProtobuf.payloadBytes]
    | cons a l => simp [NetProtobuf.payloadBytes]

/-- C1 witness: the round trip at `max = 16`, type 5, payload `[7]`. -/
theorem c1_frame_roundtrip_witness :
    ∃ bytes, writeProtobufPacket 16 (some ⟨5, some [7]⟩) = .written bytes ∧
      ∃ pb, readMsg bytes = .ok pb [] ∧ pb.msgType = 5 ∧ pb.payloadBytes = [7] :=
  c1_frame_roundtrip 16 5 [7] (by decide) (by decide) (by decide) (by decide)
    (by decide) (by decide)

/-- C2: when the inner payload of a Warning, SessionVariableChanged or
SessionStateChanged notice fails to unmarshal, `processNotice` reaches
`log.Fatalf` — the process is aborted; no recoverable DecodeError is ever
returned to the caller (the claim's required behaviour does not hold in the
code). -/
theorem c2_notice_decode_fatal (inner : InnerNoticeView) (scope : Nat) :
    (inner.asWarning = none →
      processNotice (some ⟨serverMessagesNotice, .notice 1 scope inner⟩) = .fatal) ∧
    (inner.asSessionVariableChanged = none →
      processNotice (some ⟨serverMessagesNotice, .notice 2 scope inner⟩) = .fatal) ∧
    (inner.asSessionStateChanged = none →
      processNotice (some ⟨serverMessagesNotice, .notice 3 scope inner⟩) = .fatal) := by
  refine ⟨fun h => ?_, fun h => ?_, fun h => ?_⟩ <;>
    simp [processNotice, decodeNoticeFrame, h]

/-- C2 witness: a concrete malformed inner payload aborts the process for
each of the three notice kinds. -/
theorem c2_notice_decode_fatal_witness :
    processNotice (some ⟨serverMessagesNotice, .notice 1 0 ⟨none, none, none, ""⟩⟩) = .fatal ∧
    processNotice (some ⟨serverMessagesNotice, .notice 2 0 ⟨none, none, none, ""⟩⟩) = .fatal ∧
    processNotice (some ⟨serverMessagesNotice, .notice 3 0 ⟨none, none, none, ""⟩⟩) = .fatal :=
  ⟨(c2_notice_decode_fatal ⟨none, none, none, ""⟩ 0).1 rfl,
   (c2_notice_decode_fatal ⟨none, none, none, ""⟩ 0).2.1 rfl,
   (c2_notice_decode_fatal ⟨none, none, none, ""⟩ 0).2.2 rfl⟩

/-- C3: whenever the 4 header bytes decode (little-endian) to a value below
1, `readMsg` returns the malformed-packet outcome (connection closed, no
resynchronization) with everything after the 4 header bytes unconsumed. -/
theorem c3_malformed_header (b0 b1 b2 b3 : Nat) (rest : List Nat)
    (h : b0 + b1 * 256 + b2 * 65536 + b3 * 16777216 < 1) :
    readMsg (b0 :: b1 :: b2 :: b3 :: rest) = .malformedPkt rest := by
  simp only [readMsg]
  rw [if_pos (by simp [minPacketSize]; omega)]

/-- C3 witness: an all-zero header followed by two stray bytes. -/
theorem c3_malformed_header_witness :
    readMsg [0, 0, 0, 0, 9, 9] = .malformedPkt [9, 9] :=
  c3_malformed_header 0 0 0 0 [9, 9] (by decide)

/-- C4 counterexample: `msgType = -1` lies outside 0–255, yet
`writeProtobufPacket` does not reject it — the source only checks
`pb.msgType > 255`, so a full frame is written with the type byte truncated
to 255. -/
theorem c4_counterexample :
    writeProtobufPacket 100 (some ⟨-1, none⟩) = .written [1, 0, 0, 0, 255] ∧
    (-1 : Int) < 0 := by decide

/-- C4 (amended): `writeProtobufPacket` rejects every `msgType` greater than
255 (closing the connection) and, for in-range types, every payload with
`len(payload) + 1` above the configured maximum — in both cases before any
bytes are written, and in the too-large case without closing the connection;
`msgType` values below 0 are not rejected. -/
theorem c4_amended_guards (max : Nat) (pb : NetProtobuf) :
    (255 < pb.msgType → writeProtobufPacket max (some pb) = .malformed) ∧
    (pb.msgType ≤ 255 → max < pb.payloadBytes.length + 1 →
      writeProtobufPacket max (some pb) = .tooLarge) := by
  constructor
  · intro h
    simp [writeProtobufPacket, if_pos h]
  · intro h1 h2
    simp only [writeProtobufPacket]
    rw [if_neg (by omega), if_pos (by omega)]

/-- C4 witness: type 300 is rejected as malformed; a 5-byte payload against
`max = 4` is rejected as too large. -/
theorem c4_amended_guards_witness :
    writeProtobufPacket 4 (some ⟨300, none⟩) = .malformed ∧
    writeProtobufPacket 4 (some ⟨1, some [1, 2, 3, 4, 5]⟩) = .tooLarge :=
  ⟨(c4_amended_guards 4 ⟨300, none⟩).1 (by decide),
   (c4_amended_guards 4 ⟨1, some [1, 2, 3, 4, 5]⟩).2 (by decide) (by decide)⟩

/-- C5: in the AwaitNonce step exactly one reply is read — any type other
than SESS_AUTHENTICATE_CONTINUE (a structured error and a notice included)
fails the handshake immediately, and a continue whose auth data is not 20
bytes long fails it before the credential transform is invoked. -/
theorem c5_strict_await_nonce (mech : AuthMech) (m : SrvMsg) (rest : List SrvMsg) :
    (m.msgType ≠ serverMessagesSessAuthenticateContinue →
      AuthenticateMySQL41 mech (m :: rest) =
        (.errUnexpected m.msgType, ⟨1, false, []⟩)) ∧
    (∀ d, m.msgType = serverMessagesSessAuthenticateContinue →
      m.payload = .authContinue d → d.length ≠ 20 →
      AuthenticateMySQL41 mech (m :: rest) =
        (.errNonceLen d.length, ⟨1, false, []⟩)) := by
  constructor
  · intro h
    simp [AuthenticateMySQL41, h]
  · intro d h1 h2 h3
    simp [AuthenticateMySQL41, h1, h2, decodeAuthContinue, h3]

/-- C5 witness: a notice at AwaitNonce fails the handshake after one read; a
3-byte nonce fails it with the transform never invoked. -/
theorem c5_strict_await_nonce_witness :
    AuthenticateMySQL41 ⟨[], fun d => .ok d⟩ [⟨serverMessagesNotice, .empty⟩] =
      (.errUnexpected serverMessagesNotice, ⟨1, false, []⟩) ∧
    AuthenticateMySQL41 ⟨[], fun d => .ok d⟩
        [⟨serverMessagesSessAuthenticateContinue, .authContinue [1, 2, 3]⟩] =
      (.errNonceLen 3, ⟨1, false, []⟩) :=
  ⟨(c5_strict_await_nonce ⟨[], fun d => .ok d⟩ ⟨serverMessagesNotice, .empty⟩ []).1
     (by decide),
   (c5_strict_await_nonce ⟨[], fun d => .ok d⟩
       ⟨serverMessagesSessAuthenticateContinue, .authContinue [1, 2, 3]⟩ []).2
     [1, 2, 3] rfl rfl (by decide)⟩

/-- C6: on the reply stream [Notice(Warning), Notice(SessionVariableChanged),
CapabilityList], `getCapabilities` reports both notices to the observer,
does not terminate its wait loop on either notice, and succeeds with the
capability table populated from the third frame (anything after it is left
unread). -/
theorem c6_caps_with_notices
    (w s : InnerNoticeView) (sc1 sc2 : Nat)
    (level : String) (wcode : Nat) (wmsg : String) (param value : String)
    (entries : List (String × AnyView)) (table : List (String × CapVal))
    (rest : List SrvMsg)
    (hw : w.asWarning = some (level, wcode, wmsg))
    (hs : s.asSessionVariableChanged = some (param, value))
    (ht : populateCapabilities entries = some table) :
    getCapabilities
      (⟨serverMessagesNotice, .notice 1 sc1 w⟩ ::
       ⟨serverMessagesNotice, .notice 2 sc2 s⟩ ::
       ⟨serverMessagesConnCapabilities, .caps entries⟩ :: rest) =
      (.ok table, ⟨3, [warningReport level wcode wmsg,
                       sessionVariableReport param value]⟩) := by
  simp [getCapabilities, getCapabilitiesLoop, processNotice, decodeNoticeFrame,
    decodeCapabilities, hw, hs, ht, serverMessagesNotice, serverMessagesError,
    serverMessagesConnCapabilities]

/-- C6 witness: the spec's example table — a string scalar "doc.formats" =
"JSON" and a boolean scalar "tls" = true — preceded by the two notices. -/
theorem c6_caps_with_notices_witness :
    getCapabilities
      [⟨serverMessagesNotice, .notice 1 0 ⟨some ("WARNING", 3, "w"), none, none, ""⟩⟩,
       ⟨serverMessagesNotice, .notice 2 0 ⟨none, some ("p", "v"), none, ""⟩⟩,
       ⟨serverMessagesConnCapabilities,
        .caps [("doc.formats", .scalarString "JSON"), ("tls", .scalarBool true)]⟩] =
      (.ok [("doc.formats", .str "JSON"), ("tls", .bool true)],
       ⟨3, [warningReport "WARNING" 3 "w", sessionVariableReport "p" "v"]⟩) :=
  c6_caps_with_notices ⟨some ("WARNING", 3, "w"), none, none, ""⟩
    ⟨none, some ("p", "v"), none, ""⟩ 0 0 "WARNING" 3 "w" "p" "v"
    [("doc.formats", .scalarString "JSON"), ("tls", .scalarBool true)]
    [("doc.formats", .str "JSON"), ("tls", .bool true)] [] rfl rfl rfl

/-- C7: after a 20-byte nonce and a successful credential transform, a
structured error reply at AwaitResult terminates the handshake as failed,
carrying exactly the decoded error; exactly two frames are consumed — nothing
after the error frame is read. -/
theorem c7_auth_error_terminal (mech : AuthMech) (nonce resp : List Nat)
    (f : ErrorFields) (e : XError) (rest : List SrvMsg)
    (hn : nonce.length = 20)
    (htr : mech.nextAuthData nonce = .ok resp)
    (hf : decodeErrorFields f = some e) :
    AuthenticateMySQL41 mech
      (⟨serverMessagesSessAuthenticateContinue, .authContinue nonce⟩ ::
       ⟨serverMessagesError, .errFields f⟩ :: rest) =
      (.failed (errorText e), ⟨2, true, []⟩) := by
  simp [AuthenticateMySQL41, decodeAuthContinue, hn, htr,
    waitingForAuthenticateOk, errorMsg, decodeError, hf,
    serverMessagesError, serverMessagesSessAuthenticateOk,
    serverMessagesSessAuthenticateContinue, serverMessagesNotice]

/-- C7 witness: the spec's example error 1045 [HY000] "Invalid user or
password" ends the handshake with that exact rendered error; the trailing
SESS_AUTHENTICATE_OK frame is never read. -/
theorem c7_auth_error_terminal_witness :
    AuthenticateMySQL41 ⟨[], fun d => .ok d⟩
      [⟨serverMessagesSessAuthenticateContinue,
        .authContinue [0, 1, 2, 3, 4, 5, 6, 7, 8, 9, 10, 11, 12, 13, 14, 15, 16, 17, 18, 19]⟩,
       ⟨serverMessagesError,
        .errFields ⟨some "ERROR", some 1045, some "HY000", some "Invalid user or password"⟩⟩,
       ⟨serverMessagesSessAuthenticateOk, .empty⟩] =
      (.failed "ERROR: 1045 [HY000] Invalid user or password", ⟨2, true, []⟩) :=
  (c7_auth_error_terminal ⟨[], fun d => .ok d⟩
      [0, 1, 2, 3, 4, 5, 6, 7, 8, 9, 10, 11, 12, 13, 14, 15, 16, 17, 18, 19]
      [0, 1, 2, 3, 4, 5, 6, 7, 8, 9, 10, 11, 12, 13, 14, 15, 16, 17, 18, 19]
      ⟨some "ERROR", some 1045, some "HY000", some "Invalid user or password"⟩
      ⟨"ERROR", 1045, "HY000", "Invalid user or password"⟩
      [⟨serverMessagesSessAuthenticateOk, .empty⟩] rfl rfl rfl).trans (by decide)

/-- C8 counterexample: at AwaitResult (`waitingForAuthenticateOk`), a generic
OK frame — a type outside what the step accepts — is not merely logged: the
default branch calls `log.Fatalf` and the process aborts after one read. -/
theorem c8_counterexample :
    waitingForAuthenticateOk [⟨serverMessagesOk, .empty⟩] = (.fatal, ⟨1, []⟩) := by
  decide

/-- C8 (amended): a message type outside what the step accepts — anything
but ERROR, CONN_CAPABILITIES or NOTICE at the capability-get loop, anything
but OK, ERROR or NOTICE at the capability-set loop, and anything but
SESS_AUTHENTICATE_OK, ERROR or NOTICE at AwaitResult — is logged and skipped
at the two capability loops, which continue on the remaining stream; at
AwaitResult the same condition is fatal: the process aborts after that
single read. -/
theorem c8_amended_tolerance (m : SrvMsg) (rest : List SrvMsg) :
    (m.msgType ∉ ([serverMessagesError, serverMessagesConnCapabilities,
        serverMessagesNotice] : List Nat) →
      getCapabilitiesLoop (m :: rest) =
        ((getCapabilitiesLoop rest).1,
         ⟨(getCapabilitiesLoop rest).2.consumed + 1,
          (getCapabilitiesLoop rest).2.notices⟩)) ∧
    (m.msgType ∉ ([serverMessagesOk, serverMessagesError,
        serverMessagesNotice] : List Nat) →
      setScalarBoolCapabilityLoop (m :: rest) =
        ((setScalarBoolCapabilityLoop rest).1,
         ⟨(setScalarBoolCapabilityLoop rest).2.consumed + 1,
          (setScalarBoolCapabilityLoop rest).2.notices⟩)) ∧
    (m.msgType ∉ ([serverMessagesSessAuthenticateOk, serverMessagesError,
        serverMessagesNotice] : List Nat) →
      waitingForAuthenticateOk (m :: rest) = (.fatal, ⟨1, []⟩)) := by
  refine ⟨fun h => ?_, fun h => ?_, fun h => ?_⟩
  · simp only [List.mem_cons, List.mem_singleton, not_or] at h
    obtain ⟨h1, h2, h11⟩ := h
    rcases hrec : getCapabilitiesLoop rest with ⟨core, t⟩
    simp [getCapabilitiesLoop, hrec, h1, h2, h11]
  · simp only [List.mem_cons, List.mem_singleton, not_or] at h
    obtain ⟨h0, h1, h11⟩ := h
    rcases hrec : setScalarBoolCapabilityLoop rest with ⟨core, t⟩
    simp [setScalarBoolCapabilityLoop, hrec, h0, h1, h11]
  · simp only [List.mem_cons, List.mem_singleton, not_or] at h
    obtain ⟨h4, h1, h11⟩ := h
    simp [waitingForAuthenticateOk, h4, h1, h11]

/-- C8 witness: SESS_AUTHENTICATE_OK (4) is unexpected at the capability-get
loop and skipped there; CONN_CAPABILITIES (2) is unexpected at the
capability-set loop and skipped there; the same CONN_CAPABILITIES (2) at
AwaitResult is fatal. -/
theorem c8_amended_tolerance_witness :
    (getCapabilitiesLoop [⟨serverMessagesSessAuthenticateOk, PayloadView.empty⟩] =
      ((getCapabilitiesLoop []).1,
       ⟨(getCapabilitiesLoop []).2.consumed + 1,
        (getCapabilitiesLoop []).2.notices⟩)) ∧
    (setScalarBoolCapabilityLoop [⟨serverMessagesConnCapabilities, PayloadView.empty⟩] =
      ((setScalarBoolCapabilityLoop []).1,
       ⟨(setScalarBoolCapabilityLoop []).2.consumed + 1,
        (setScalarBoolCapabilityLoop []).2.notices⟩)) ∧
    waitingForAuthenticateOk [⟨serverMessagesConnCapabilities, PayloadView.empty⟩] =
      (.fatal, ⟨1, []⟩) :=
  ⟨(c8_amended_tolerance ⟨serverMessagesSessAuthenticateOk, PayloadView.empty⟩ []).1
     (by decide),
   (c8_amended_tolerance ⟨serverMessagesConnCapabilities, PayloadView.empty⟩ []).2.1
     (by decide),
   (c8_amended_tolerance ⟨serverMessagesConnCapabilities, PayloadView.empty⟩ []).2.2
     (by decide)⟩

/-- C9: for every error payload in which any of the four mandatory fields
(severity, code, sqlState, message) is absent, the package-level `errorMsg`
reaches `log.Fatal` — the process aborts; no DecodeError value is returned
(the claim's required total, non-crashing behaviour does not hold in the
code). -/
theorem c9_error_decode_fatal (f : ErrorFields)
    (h : f.severity = none ∨ f.code = none ∨ f.sqlState = none ∨
      f.message = none) :
    errorMsg (.errFields f) = .fatal := by
  obtain ⟨sv, c, sq, m⟩ := f
  cases sv <;> cases c <;> cases sq <;> cases m <;>
    simp_all [errorMsg, decodeError, decodeErrorFields]

/-- C9 witness: an error payload whose mandatory code field is absent aborts
the process. -/
theorem c9_error_decode_fatal_witness :
    errorMsg (.errFields ⟨some "ERROR", none, some "HY000",
      some "Invalid user or password"⟩) = .fatal :=
  c9_error_decode_fatal
    ⟨some "ERROR", none, some "HY000", some "Invalid user or password"⟩
    (Or.inr (Or.inl rfl))

/-- C10: a frame of total body length exactly 1 (type byte only) decodes
with a nil payload, and when the terminating capability-list frame carries a
nil payload `getCapabilities` returns the "BUG: Empty pb.payload" error
rather than succeeding with an empty capability table. -/
theorem c10_typeonly_caps_frame (t : Nat) (more : List Nat) :
    readMsg (1 :: 0 :: 0 :: 0 :: t :: more) = .ok ⟨Int.ofNat t, none⟩ more ∧
    ∀ rest, getCapabilities (⟨serverMessagesConnCapabilities, .empty⟩ :: rest) =
      (.err "BUG: Empty pb.payload", ⟨1, []⟩) := by
  constructor
  · have h := readMsg_frame 1 (by decide) (by decide) [t] more (by simp)
    simpa [le32] using h
  · intro rest
    simp [getCapabilities, getCapabilitiesLoop, serverMessagesConnCapabilities,
      serverMessagesError, serverMessagesNotice]

end MysqlX
